import Mathlib

set_option maxRecDepth 16384

/-!
Verification of the KDE/Kali settings backup scripts.

The repository consists of two straight-line Python scripts:

* `KDE_Kali_linux_get_current_settings_and_themes.py` (the exporter) runs five
  `gsettings get` queries via `subprocess.run`, strips each captured stdout,
  stores the results in a dict under the keys `gtk_theme`, `icon_theme`,
  `cursor_theme`, `wallpaper`, `color_scheme` (in that insertion order) and
  serializes the dict with `json.dump` to the file `settings.json`.

* `KDE_Kali_reinstall_fav_settings_and_themes.py` (the importer) loads
  `settings.json` with `json.load` and, for each of the same five keys in the
  same order, runs `gsettings set` with the stored value as the last argument.

This file embeds both scripts and the external `gsettings` collaborator
(modelled per spec sections 6 and 9 as a get/set capability over a
schema-and-key addressed store) and proves or refutes the spec's claims.
-/

/-- Ascii whitespace as recognised by Python's `bytes.strip()`:
space, tab, newline, vertical tab, form feed, carriage return. -/
def isPyWS (c : Char) : Bool :=
  c == ' ' || c == '\t' || c == '\n' || c == '\x0b' || c == '\x0c' || c == '\r'

/-- Drop leading Python whitespace from a character list. -/
def lstripChars (l : List Char) : List Char := l.dropWhile isPyWS

/-- Drop trailing Python whitespace from a character list. -/
def rstripChars (l : List Char) : List Char := (l.reverse.dropWhile isPyWS).reverse

/-- Embedding of Python's `bytes.strip()` (as used on each captured stdout in
the exporter): remove leading and trailing ascii whitespace.  The subsequent
`.decode("utf-8")` is the identity in this model, which represents captured
output directly as a string. -/
def pyStrip (s : String) : String := String.mk (rstripChars (lstripChars s.data))

/-- A parsed JSON object of string fields, in serialization order: the shape of
the document the exporter writes and the importer loads. -/
abbrev Doc := List (String × String)

/-- Python `dict` lookup (`settings[k]`) on a parsed JSON object, `none` playing
the role of a `KeyError`.  When JSON parsing sees a duplicated key the last
binding wins, hence the lookup searches from the right. -/
def dictLookup (d : Doc) (k : String) : Option String :=
  (List.find? (fun e => e.1 == k) d.reverse).map (fun e => e.2)

/-- The live configuration store behind `gsettings`: a finite assignment of
values to (schema, key) addresses.  Modelled per spec sections 6 and 9. -/
abbrev GStore := List ((String × String) × String)

/-- Read a value from the configuration store (the collaborator's
`get value for (schema, key)` capability, spec section 6). -/
def gsGet : GStore → String → String → Option String
  | [], _, _ => none
  | e :: rest, s, k =>
    if e.1.1 = s ∧ e.1.2 = k then some e.2 else gsGet rest s k

/-- Write a value in the configuration store (the collaborator's
`set value for (schema, key) = value` capability, spec section 6).  A write to
an address the store does not hold fails with a nonzero exit and leaves the
store unchanged, which this function renders as a no-op on the store. -/
def gsSet : GStore → String → String → String → GStore
  | [], _, _, _ => []
  | e :: rest, s, k, v =>
    if e.1.1 = s ∧ e.1.2 = k then ((s, k), v) :: gsSet rest s k v
    else e :: gsSet rest s k v

/-- Outcome of one `subprocess.run` call: either the executable is absent
(Python raises `FileNotFoundError`) or the process ran, producing captured
stdout text and an exit code. -/
inductive RunOutcome where
  | missing
  | ran (stdout : String) (exitCode : Nat)
deriving DecidableEq

/-- True exactly on the `missing` outcome. -/
def isMissing : RunOutcome → Bool
  | RunOutcome.missing => true
  | RunOutcome.ran _ _ => false

/-- An environment answering external process invocations: what each argument
vector produces when run. -/
abbrev Env := List String → RunOutcome

/-- Embedding of one exporter statement
`subprocess.run(argv, capture_output=True).stdout.strip().decode("utf-8")`:
`none` when the tool is missing (the uncaught `FileNotFoundError` aborts the
script), otherwise the stripped captured stdout, whatever the exit code. -/
def capture (env : Env) (argv : List String) : Option String :=
  match env argv with
  | RunOutcome.missing => none
  | RunOutcome.ran out _ => some (pyStrip out)

/-- Schema argument of the three interface queries (source lines 13, 17, 21). -/
def interfaceSchema : String := "org.gnome.desktop.interface"

/-- Schema argument of the wallpaper query (source line 25). -/
def backgroundSchema : String := "org.gnome.desktop.background"

/-- Schema argument of the color-scheme query and write, exactly the Python
string literal of exporter line 29 and importer line 23.  The apostrophes and
braces of the embedded `awk` text are written with `\x27`, `\x7b`, `\x7d`
escapes.  Note the `$(`...`)` command substitution is part of the literal. -/
def terminalSchema : String := "org.gnome.Terminal.Legacy.Profile:/org/gnome/terminal/legacy/profiles:/:$(gsettings get org.gnome.Terminal.ProfilesList default|awk -F\x27 \x27 \x27\x7bprint $2\x7d\x27|awk -F\x27\x27 \x27\x7bprint $1\x7d\x27)/"

/-- Leading part of `terminalSchema` before the command substitution. -/
def terminalSchemaHead : String := "org.gnome.Terminal.Legacy.Profile:/org/gnome/terminal/legacy/profiles:/:"

/-- The shell command text embedded (unevaluated) inside `terminalSchema`. -/
def terminalSchemaCmd : String := "gsettings get org.gnome.Terminal.ProfilesList default|awk -F\x27 \x27 \x27\x7bprint $2\x7d\x27|awk -F\x27\x27 \x27\x7bprint $1\x7d\x27"

/-- Argument vector of exporter line 13 (GTK theme read). -/
def gtkQuery : List String := ["gsettings", "get", interfaceSchema, "gtk-theme"]

/-- Argument vector of exporter line 17 (icon theme read). -/
def iconQuery : List String := ["gsettings", "get", interfaceSchema, "icon-theme"]

/-- Argument vector of exporter line 21 (cursor theme read). -/
def cursorQuery : List String := ["gsettings", "get", interfaceSchema, "cursor-theme"]

/-- Argument vector of exporter line 25 (wallpaper read). -/
def wallQuery : List String := ["gsettings", "get", backgroundSchema, "picture-uri"]

/-- Argument vector of exporter line 29 (terminal color read). -/
def colorQuery : List String := ["gsettings", "get", terminalSchema, "foreground-color"]

/-- The exporter's five statements in program order: dict key together with the
argument vector of the `gsettings get` invocation (source lines 13-30). -/
def exportQueries : List (String × List String) :=
  [ ("gtk_theme", gtkQuery),
    ("icon_theme", iconQuery),
    ("cursor_theme", cursorQuery),
    ("wallpaper", wallQuery),
    ("color_scheme", colorQuery) ]

/-- Sequential execution of the exporter's query statements: returns the dict
built so far (or `none` once a missing tool aborts the script) together with
the invocations attempted, in order.  An aborting invocation is still the last
attempted one; nothing after it runs. -/
def exportGo (env : Env) : List (String × List String) → Option Doc × List (List String)
  | [] => (some [], [])
  | (name, argv) :: rest =>
    match capture env argv with
    | none => (none, [argv])
    | some val =>
      let r := exportGo env rest
      (Option.map (fun d => (name, val) :: d) r.1, argv :: r.2)

/-- The dict the exporter assembles (lines 10-30), `none` when the run aborts. -/
def exportRecord (env : Env) : Option Doc := (exportGo env exportQueries).1

/-- The invocations the exporter issues, in order. -/
def exportTrace (env : Env) : List (List String) := (exportGo env exportQueries).2

/-- Fixed output location of the exporter (line 33). -/
def settingsPath : String := "settings.json"

/-- A file system assigning to each path the structured document stored there,
if any. -/
abbrev FS := String → Option Doc

/-- The empty file system. -/
def fsEmpty : FS := fun _ => none

/-- Effect of the exporter on the file system (lines 33-34): when the run
completes, `json.dump` places the record at `settings.json`, overwriting
whatever was there; when the run aborts beforehand, the file system is
untouched. -/
def exportFS (env : Env) (fs : FS) : FS :=
  match exportRecord env with
  | some r => fun p => if p = settingsPath then some r else fs p
  | none => fs

/-- The importer's five statements in program order: dict key, schema argument
and key argument of each `gsettings set` invocation (source lines 11-23). -/
def importEntries : List (String × String × String) :=
  [ ("gtk_theme", interfaceSchema, "gtk-theme"),
    ("icon_theme", interfaceSchema, "icon-theme"),
    ("cursor_theme", interfaceSchema, "cursor-theme"),
    ("wallpaper", backgroundSchema, "picture-uri"),
    ("color_scheme", terminalSchema, "foreground-color") ]

/-- The importer's dict keys in program order. -/
def importKeyNames : List String := List.map (fun e => e.1) importEntries

/-- The five fixed record keys, in the exporter's insertion order. -/
def fiveKeyNames : List String :=
  ["gtk_theme", "icon_theme", "cursor_theme", "wallpaper", "color_scheme"]

/-- Sequential execution of the importer's statements on the configuration
store: each statement looks the dict key up (`settings[k]`; a missing key
raises `KeyError`, aborting the script with no further invocations) and then
runs `gsettings set schema key value`.  Returns the final store, the argument
vectors of the write invocations issued in order, and whether the run reached
the end.  Exit codes of the writes are ignored, exactly as in the source. -/
def importGo (d : Doc) : List (String × String × String) → GStore → GStore × List (List String) × Bool
  | [], st => (st, [], true)
  | (name, schema, key) :: rest, st =>
    match dictLookup d name with
    | none => (st, [], false)
    | some v =>
      let r := importGo d rest (gsSet st schema key v)
      (r.1, (["gsettings", "set", schema, key, v]) :: r.2.1, r.2.2)

/-- The importer's whole pass over a successfully parsed document
(source lines 11-23). -/
def importRun (st : GStore) (d : Doc) : GStore × List (List String) × Bool :=
  importGo d importEntries st

/-- What the importer finds at `settings.json` before any write: the file may
be absent (`open` raises `FileNotFoundError`), hold text that does not parse
as the structured document (`json.load` raises), or parse to a document. -/
inductive ImportInput where
  | noFile
  | badSyntax
  | doc (d : Doc)

/-- The importer from the top (source lines 7-23): `open` plus `json.load`
happen before the first `subprocess.run`, and an exception there terminates
the script with no write issued and the store untouched.  The boolean records
whether the run finished without an uncaught exception. -/
def importerMain (st : GStore) (inp : ImportInput) : GStore × List (List String) × Bool :=
  match inp with
  | ImportInput.noFile => (st, [], false)
  | ImportInput.badSyntax => (st, [], false)
  | ImportInput.doc d => importRun st d

/-- The `gsettings` command-line collaborator over a given store, for argument
vectors of the exporter's shape: `get` on a held (schema, key) prints the value
followed by a newline and exits 0; `get` on an address the store does not hold
prints nothing on stdout (diagnostics go to stderr) and exits nonzero.  The
tool is present. -/
def storeEnv (st : GStore) (argv : List String) : RunOutcome :=
  match argv with
  | [g, a, s, k] =>
    if g = "gsettings" ∧ a = "get" then
      match gsGet st s k with
      | some v => RunOutcome.ran (v ++ "\n") 0
      | none => RunOutcome.ran "" 1
    else RunOutcome.ran "" 1
  | _ => RunOutcome.ran "" 1

/-- The value the exporter captures for one address when run against a store:
stripped stdout of the corresponding `gsettings get`. -/
def roundVal (st : GStore) (s k : String) : String :=
  pyStrip (match gsGet st s k with
    | some v => v ++ "\n"
    | none => "")

/-- The five (schema, key) addresses the scripts read and write. -/
def fiveTargets : List (String × String) :=
  [ (interfaceSchema, "gtk-theme"),
    (interfaceSchema, "icon-theme"),
    (interfaceSchema, "cursor-theme"),
    (backgroundSchema, "picture-uri"),
    (terminalSchema, "foreground-color") ]

/-- A store value is well formed at an address when it carries no surrounding
ascii whitespace, as `gsettings` serializations never do (a string value is
printed inside apostrophes). -/
def wsClean (st : GStore) (t : String × String) : Bool :=
  Option.all (fun v => pyStrip v == v) (gsGet st t.1 t.2)

/-- The writes the importer issues for the first `i` entries of a document. -/
def importWriteList (d : Doc) (i : Nat) : List (List String) :=
  List.map (fun e => ["gsettings", "set", e.2.1, e.2.2, (dictLookup d e.1).getD ""])
    (importEntries.take i)

/-- A sample live store holding all five addresses, with values shaped like
`gsettings` string serializations. -/
def st0 : GStore :=
  [ ((interfaceSchema, "gtk-theme"), "\x27Kali-Dark\x27"),
    ((interfaceSchema, "icon-theme"), "\x27Flat-Remix-Blue-Dark\x27"),
    ((interfaceSchema, "cursor-theme"), "\x27Adwaita\x27"),
    ((backgroundSchema, "picture-uri"), "\x27file:///usr/share/backgrounds/kali.png\x27"),
    ((terminalSchema, "foreground-color"), "\x27rgb(255,255,255)\x27") ]

/-- A realistic live store: the four desktop addresses exist, while the
color-scheme address does not (no real schema carries the literal `$(`...`)`
text in its name). -/
def stReal : GStore :=
  [ ((interfaceSchema, "gtk-theme"), "\x27Kali-Dark\x27"),
    ((interfaceSchema, "icon-theme"), "\x27Flat-Remix-Blue-Dark\x27"),
    ((interfaceSchema, "cursor-theme"), "\x27Adwaita\x27"),
    ((backgroundSchema, "picture-uri"), "\x27file:///usr/share/backgrounds/kali.png\x27") ]

/-- The spec section 8 scenario document. -/
def d0 : Doc :=
  [ ("gtk_theme", "Adwaita"),
    ("icon_theme", "Papirus"),
    ("cursor_theme", "Adwaita"),
    ("wallpaper", "file:///wall.png"),
    ("color_scheme", "#FFFFFF") ]

/-- A valid document that lacks the `color_scheme` key. -/
def docMissingColor : Doc :=
  [ ("gtk_theme", "Adwaita"),
    ("icon_theme", "Papirus"),
    ("cursor_theme", "Adwaita"),
    ("wallpaper", "file:///wall.png") ]

/-- An environment in which every query runs and prints the same value. -/
def envAllOk : Env := fun _ => RunOutcome.ran "\x27X\x27\n" 0

/-- The record the exporter assembles under `envAllOk`. -/
def rAllOk : Doc :=
  [ ("gtk_theme", "\x27X\x27"),
    ("icon_theme", "\x27X\x27"),
    ("cursor_theme", "\x27X\x27"),
    ("wallpaper", "\x27X\x27"),
    ("color_scheme", "\x27X\x27") ]

/-- An environment in which the wallpaper query exits nonzero with empty
stdout and every other query succeeds. -/
def envDegraded : Env := fun argv =>
  if argv = wallQuery then RunOutcome.ran "" 1 else RunOutcome.ran "\x27X\x27\n" 0

/-- The record the exporter assembles under `envDegraded`. -/
def rDeg : Doc :=
  [ ("gtk_theme", "\x27X\x27"),
    ("icon_theme", "\x27X\x27"),
    ("cursor_theme", "\x27X\x27"),
    ("wallpaper", ""),
    ("color_scheme", "\x27X\x27") ]

/-- An environment in which the `gsettings` executable cannot be found for the
very first query. -/
def envMissingTool : Env := fun argv =>
  if argv = gtkQuery then RunOutcome.missing else RunOutcome.ran "\x27X\x27\n" 0

theorem lstripChars_append (l1 l2 : List Char) :
    lstripChars (l1 ++ l2) =
      if lstripChars l1 = [] then lstripChars l2 else lstripChars l1 ++ l2 := by
  induction l1 with
  | nil => simp [lstripChars]
  | cons a l ih =>
    by_cases h : isPyWS a
    · simpa [lstripChars, List.dropWhile_cons, h] using ih
    · simp [lstripChars, List.dropWhile_cons, h]

theorem rstripChars_append_nl (l : List Char) :
    rstripChars (l ++ ['\n']) = rstripChars l := by
  simp [rstripChars, List.dropWhile_cons, isPyWS]

theorem pyStrip_append_newline (s : String) : pyStrip (s ++ "\n") = pyStrip s := by
  have hd : (s ++ "\n").data = s.data ++ ['\n'] := String.data_append s "\n"
  unfold pyStrip
  rw [hd, lstripChars_append]
  by_cases h : lstripChars s.data = []
  · rw [if_pos h, h]; rfl
  · rw [if_neg h, rstripChars_append_nl]

theorem gsGet_gsSet_same (st : GStore) (s k v : String) :
    gsGet (gsSet st s k v) s k = Option.map (fun _ => v) (gsGet st s k) := by
  induction st with
  | nil => rfl
  | cons e rest ih =>
    by_cases h : e.1.1 = s ∧ e.1.2 = k
    · simp [gsSet, gsGet, h]
    · simp [gsSet, gsGet, h, ih]

theorem gsGet_gsSet_ne (st : GStore) (s k v s2 k2 : String)
    (h : s2 ≠ s ∨ k2 ≠ k) :
    gsGet (gsSet st s k v) s2 k2 = gsGet st s2 k2 := by
  induction st with
  | nil => rfl
  | cons e rest ih =>
    by_cases hm : e.1.1 = s ∧ e.1.2 = k
    · have hne : ¬ (s = s2 ∧ k = k2) := by
        rcases h with h | h
        · exact fun hc => h (hc.1.symm)
        · exact fun hc => h (hc.2.symm)
      have hne2 : ¬ (e.1.1 = s2 ∧ e.1.2 = k2) := by
        rw [hm.1, hm.2]
        exact hne
      simp [gsSet, gsGet, hm, hne, hne2, ih]
    · by_cases hq : e.1.1 = s2 ∧ e.1.2 = k2
      · have hcond : ¬ (s2 = s ∧ k2 = k) := by
          rcases h with h | h
          · exact fun hc => h hc.1
          · exact fun hc => h hc.2
        simp [gsSet, gsGet, hm, hq, hcond]
      · simp [gsSet, gsGet, hm, hq, ih]

theorem capture_storeEnv (st : GStore) (s k : String) :
    capture (storeEnv st) ["gsettings", "get", s, k] = some (roundVal st s k) := by
  cases hg : gsGet st s k <;>
    simp [capture, storeEnv, roundVal, hg]

theorem exportRecord_split (env : Env) (r : Doc) (h : exportRecord env = some r) :
    ∃ o1 c1 o2 c2 o3 c3 o4 c4 o5 c5,
      env gtkQuery = RunOutcome.ran o1 c1 ∧
      env iconQuery = RunOutcome.ran o2 c2 ∧
      env cursorQuery = RunOutcome.ran o3 c3 ∧
      env wallQuery = RunOutcome.ran o4 c4 ∧
      env colorQuery = RunOutcome.ran o5 c5 ∧
      r = [("gtk_theme", pyStrip o1), ("icon_theme", pyStrip o2),
           ("cursor_theme", pyStrip o3), ("wallpaper", pyStrip o4),
           ("color_scheme", pyStrip o5)] := by
  cases e1 : env gtkQuery <;> cases e2 : env iconQuery <;> cases e3 : env cursorQuery <;>
    cases e4 : env wallQuery <;> cases e5 : env colorQuery <;>
    simp [exportRecord, exportQueries, exportGo, capture, e1, e2, e3, e4, e5] at h <;>
    exact ⟨_, _, _, _, _, _, _, _, _, _, rfl, rfl, rfl, rfl, rfl, h.symm⟩

theorem exportTrace_mem (env : Env) (q : List String) (h : q ∈ exportTrace env) :
    q = gtkQuery ∨ q = iconQuery ∨ q = cursorQuery ∨ q = wallQuery ∨ q = colorQuery := by
  cases e1 : env gtkQuery <;> cases e2 : env iconQuery <;> cases e3 : env cursorQuery <;>
    cases e4 : env wallQuery <;> cases e5 : env colorQuery <;>
    simp [exportTrace, exportQueries, exportGo, capture, e1, e2, e3, e4, e5] at h <;>
    tauto

theorem importRun_eq (st : GStore) (d : Doc) (v1 v2 v3 v4 v5 : String)
    (h1 : dictLookup d "gtk_theme" = some v1) (h2 : dictLookup d "icon_theme" = some v2)
    (h3 : dictLookup d "cursor_theme" = some v3) (h4 : dictLookup d "wallpaper" = some v4)
    (h5 : dictLookup d "color_scheme" = some v5) :
    importRun st d =
      (gsSet (gsSet (gsSet (gsSet (gsSet st interfaceSchema "gtk-theme" v1)
          interfaceSchema "icon-theme" v2) interfaceSchema "cursor-theme" v3)
          backgroundSchema "picture-uri" v4) terminalSchema "foreground-color" v5,
       [["gsettings", "set", interfaceSchema, "gtk-theme", v1],
        ["gsettings", "set", interfaceSchema, "icon-theme", v2],
        ["gsettings", "set", interfaceSchema, "cursor-theme", v3],
        ["gsettings", "set", backgroundSchema, "picture-uri", v4],
        ["gsettings", "set", terminalSchema, "foreground-color", v5]], true) := by
  simp [importRun, importEntries, importGo, h1, h2, h3, h4, h5]

/-- The document the exporter assembles when run against a live store. -/
def roundDoc (st : GStore) : Doc :=
  [ ("gtk_theme", roundVal st interfaceSchema "gtk-theme"),
    ("icon_theme", roundVal st interfaceSchema "icon-theme"),
    ("cursor_theme", roundVal st interfaceSchema "cursor-theme"),
    ("wallpaper", roundVal st backgroundSchema "picture-uri"),
    ("color_scheme", roundVal st terminalSchema "foreground-color") ]

theorem exportRecord_storeEnv (st : GStore) :
    exportRecord (storeEnv st) = some (roundDoc st) := by
  simp [exportRecord, exportQueries, exportGo, gtkQuery, iconQuery, cursorQuery,
    wallQuery, colorQuery, capture_storeEnv, roundDoc]

theorem gsSet_keep (stx st : GStore) (s k : String)
    (hv : wsClean st (s, k) = true)
    (heq : gsGet stx s k = gsGet st s k) :
    gsGet (gsSet stx s k (roundVal st s k)) s k = gsGet st s k := by
  rw [gsGet_gsSet_same, heq]
  cases hg : gsGet st s k with
  | none => rfl
  | some v =>
    have hv2 : pyStrip v = v := by
      rw [wsClean] at hv
      simp only [hg, Option.all_some, beq_iff_eq] at hv
      exact hv
    simp [roundVal, hg, pyStrip_append_newline, hv2]

theorem roundDoc_gtk (st : GStore) :
    dictLookup (roundDoc st) "gtk_theme" = some (roundVal st interfaceSchema "gtk-theme") := rfl

theorem roundDoc_icon (st : GStore) :
    dictLookup (roundDoc st) "icon_theme" = some (roundVal st interfaceSchema "icon-theme") := rfl

theorem roundDoc_cursor (st : GStore) :
    dictLookup (roundDoc st) "cursor_theme" = some (roundVal st interfaceSchema "cursor-theme") := rfl

theorem roundDoc_wall (st : GStore) :
    dictLookup (roundDoc st) "wallpaper" = some (roundVal st backgroundSchema "picture-uri") := rfl

theorem roundDoc_color (st : GStore) :
    dictLookup (roundDoc st) "color_scheme" = some (roundVal st terminalSchema "foreground-color") := rfl

/-- Claim C1: on a system whose configuration store is unchanged between the two
runs, running the exporter (against the live store) and then the importer (on
the document the exporter persisted at the fixed location) leaves each of the
five settings with the value it held before export.  The store is assumed well
formed in the sense that held values carry no surrounding whitespace, as
`gsettings` serializations never do. -/
theorem export_import_roundtrip (st : GStore) (fs : FS)
    (hwf : List.all fiveTargets (fun t => wsClean st t) = true) :
    ∃ r : Doc, exportFS (storeEnv st) fs settingsPath = some r ∧
      ∀ t ∈ fiveTargets, gsGet (importRun st r).1 t.1 t.2 = gsGet st t.1 t.2 := by
  have hrec := exportRecord_storeEnv st
  refine ⟨roundDoc st, ?_, ?_⟩
  · simp [exportFS, hrec]
  · have hwf2 : wsClean st (interfaceSchema, "gtk-theme") = true ∧
        wsClean st (interfaceSchema, "icon-theme") = true ∧
        wsClean st (interfaceSchema, "cursor-theme") = true ∧
        wsClean st (backgroundSchema, "picture-uri") = true ∧
        wsClean st (terminalSchema, "foreground-color") = true := by
      simpa [fiveTargets] using hwf
    obtain ⟨w1, w2, w3, w4, w5⟩ := hwf2
    intro t ht
    rw [importRun_eq st (roundDoc st) _ _ _ _ _ (roundDoc_gtk st) (roundDoc_icon st)
      (roundDoc_cursor st) (roundDoc_wall st) (roundDoc_color st)]
    have ne_icon_gtk : ("gtk-theme" : String) ≠ "icon-theme" := by decide
    have ne_cur_gtk : ("gtk-theme" : String) ≠ "cursor-theme" := by decide
    have ne_pic_gtk : ("gtk-theme" : String) ≠ "picture-uri" := by decide
    have ne_fg_gtk : ("gtk-theme" : String) ≠ "foreground-color" := by decide
    have ne_gtk_icon : ("icon-theme" : String) ≠ "gtk-theme" := by decide
    have ne_cur_icon : ("icon-theme" : String) ≠ "cursor-theme" := by decide
    have ne_pic_icon : ("icon-theme" : String) ≠ "picture-uri" := by decide
    have ne_fg_icon : ("icon-theme" : String) ≠ "foreground-color" := by decide
    have ne_gtk_cur : ("cursor-theme" : String) ≠ "gtk-theme" := by decide
    have ne_icon_cur : ("cursor-theme" : String) ≠ "icon-theme" := by decide
    have ne_pic_cur : ("cursor-theme" : String) ≠ "picture-uri" := by decide
    have ne_fg_cur : ("cursor-theme" : String) ≠ "foreground-color" := by decide
    have ne_gtk_pic : ("picture-uri" : String) ≠ "gtk-theme" := by decide
    have ne_icon_pic : ("picture-uri" : String) ≠ "icon-theme" := by decide
    have ne_cur_pic : ("picture-uri" : String) ≠ "cursor-theme" := by decide
    have ne_fg_pic : ("picture-uri" : String) ≠ "foreground-color" := by decide
    have ne_gtk_fg : ("foreground-color" : String) ≠ "gtk-theme" := by decide
    have ne_icon_fg : ("foreground-color" : String) ≠ "icon-theme" := by decide
    have ne_cur_fg : ("foreground-color" : String) ≠ "cursor-theme" := by decide
    have ne_pic_fg : ("foreground-color" : String) ≠ "picture-uri" := by decide
    fin_cases ht <;> dsimp only
    · rw [gsGet_gsSet_ne _ _ _ _ _ _ (Or.inr ne_fg_gtk),
        gsGet_gsSet_ne _ _ _ _ _ _ (Or.inr ne_pic_gtk),
        gsGet_gsSet_ne _ _ _ _ _ _ (Or.inr ne_cur_gtk),
        gsGet_gsSet_ne _ _ _ _ _ _ (Or.inr ne_icon_gtk)]
      exact gsSet_keep st st interfaceSchema "gtk-theme" w1 rfl
    · rw [gsGet_gsSet_ne _ _ _ _ _ _ (Or.inr ne_fg_icon),
        gsGet_gsSet_ne _ _ _ _ _ _ (Or.inr ne_pic_icon),
        gsGet_gsSet_ne _ _ _ _ _ _ (Or.inr ne_cur_icon)]
      exact gsSet_keep _ st interfaceSchema "icon-theme" w2
        (gsGet_gsSet_ne _ _ _ _ _ _ (Or.inr ne_gtk_icon))
    · rw [gsGet_gsSet_ne _ _ _ _ _ _ (Or.inr ne_fg_cur),
        gsGet_gsSet_ne _ _ _ _ _ _ (Or.inr ne_pic_cur)]
      exact gsSet_keep _ st interfaceSchema "cursor-theme" w3
        ((gsGet_gsSet_ne _ _ _ _ _ _ (Or.inr ne_icon_cur)).trans
          (gsGet_gsSet_ne _ _ _ _ _ _ (Or.inr ne_gtk_cur)))
    · rw [gsGet_gsSet_ne _ _ _ _ _ _ (Or.inr ne_fg_pic)]
      exact gsSet_keep _ st backgroundSchema "picture-uri" w4
        (((gsGet_gsSet_ne _ _ _ _ _ _ (Or.inr ne_cur_pic)).trans
          (gsGet_gsSet_ne _ _ _ _ _ _ (Or.inr ne_icon_pic))).trans
          (gsGet_gsSet_ne _ _ _ _ _ _ (Or.inr ne_gtk_pic)))
    · exact gsSet_keep _ st terminalSchema "foreground-color" w5
        ((((gsGet_gsSet_ne _ _ _ _ _ _ (Or.inr ne_pic_fg)).trans
          (gsGet_gsSet_ne _ _ _ _ _ _ (Or.inr ne_cur_fg))).trans
          (gsGet_gsSet_ne _ _ _ _ _ _ (Or.inr ne_icon_fg))).trans
          (gsGet_gsSet_ne _ _ _ _ _ _ (Or.inr ne_gtk_fg)))

theorem export_import_roundtrip_witness :
    List.all fiveTargets (fun t => wsClean st0 t) = true ∧
    exportFS (storeEnv st0) fsEmpty settingsPath = some (roundDoc st0) ∧
    gsGet (importRun st0 (roundDoc st0)).1 interfaceSchema "gtk-theme"
      = gsGet st0 interfaceSchema "gtk-theme" := by
  obtain ⟨r, hfs, hrt⟩ := export_import_roundtrip st0 fsEmpty (by decide)
  have h2 : exportFS (storeEnv st0) fsEmpty settingsPath = some (roundDoc st0) := by
    simp [exportFS, exportRecord_storeEnv]
  have hr : r = roundDoc st0 := by
    rw [hfs] at h2
    exact Option.some.inj h2.symm |>.symm
  subst hr
  exact ⟨by decide, hfs, hrt (interfaceSchema, "gtk-theme") (by simp [fiveTargets])⟩

/-- Claim C6: when the input file is missing or does not parse as the
structured document, the importer aborts before issuing any write invocation
and the configuration store is unchanged. -/
theorem import_bad_input_aborts (st : GStore) :
    importerMain st ImportInput.noFile = (st, [], false) ∧
    importerMain st ImportInput.badSyntax = (st, [], false) :=
  ⟨rfl, rfl⟩

/-- Claim C3: on a document holding all five keys, the importer issues exactly
five write invocations, one per key, each carrying the stored value verbatim
as the final argument, in the fixed key order gtk_theme, icon_theme,
cursor_theme, wallpaper, color_scheme, and finishes the whole pass. -/
theorem import_complete_doc_five_writes (st : GStore) (d : Doc)
    (v1 v2 v3 v4 v5 : String)
    (h1 : dictLookup d "gtk_theme" = some v1)
    (h2 : dictLookup d "icon_theme" = some v2)
    (h3 : dictLookup d "cursor_theme" = some v3)
    (h4 : dictLookup d "wallpaper" = some v4)
    (h5 : dictLookup d "color_scheme" = some v5) :
    (importRun st d).2 =
      ([["gsettings", "set", interfaceSchema, "gtk-theme", v1],
        ["gsettings", "set", interfaceSchema, "icon-theme", v2],
        ["gsettings", "set", interfaceSchema, "cursor-theme", v3],
        ["gsettings", "set", backgroundSchema, "picture-uri", v4],
        ["gsettings", "set", terminalSchema, "foreground-color", v5]], true) := by
  rw [importRun_eq st d v1 v2 v3 v4 v5 h1 h2 h3 h4 h5]

theorem import_complete_doc_five_writes_witness :
    dictLookup d0 "gtk_theme" = some "Adwaita" ∧
    dictLookup d0 "icon_theme" = some "Papirus" ∧
    dictLookup d0 "cursor_theme" = some "Adwaita" ∧
    dictLookup d0 "wallpaper" = some "file:///wall.png" ∧
    dictLookup d0 "color_scheme" = some "#FFFFFF" ∧
    (importRun st0 d0).2 =
      ([["gsettings", "set", interfaceSchema, "gtk-theme", "Adwaita"],
        ["gsettings", "set", interfaceSchema, "icon-theme", "Papirus"],
        ["gsettings", "set", interfaceSchema, "cursor-theme", "Adwaita"],
        ["gsettings", "set", backgroundSchema, "picture-uri", "file:///wall.png"],
        ["gsettings", "set", terminalSchema, "foreground-color", "#FFFFFF"]], true) :=
  ⟨rfl, rfl, rfl, rfl, rfl,
    import_complete_doc_five_writes st0 d0 "Adwaita" "Papirus" "Adwaita"
      "file:///wall.png" "#FFFFFF" rfl rfl rfl rfl rfl⟩

/-- Claim C9: on a document holding all five keys the importer never branches
on a write's exit code: the run completes, all five writes are attempted in
order whatever the store, and each setting ends at the document's value when
its write succeeds (address held) while keeping its old state when the write
fails — earlier successful writes stay applied, with no abort and no
rollback. -/
theorem import_write_failure_continues (st : GStore) (d : Doc)
    (v1 v2 v3 v4 v5 : String)
    (h1 : dictLookup d "gtk_theme" = some v1)
    (h2 : dictLookup d "icon_theme" = some v2)
    (h3 : dictLookup d "cursor_theme" = some v3)
    (h4 : dictLookup d "wallpaper" = some v4)
    (h5 : dictLookup d "color_scheme" = some v5) :
    (importRun st d).2.2 = true ∧
    List.length (importRun st d).2.1 = 5 ∧
    gsGet (importRun st d).1 interfaceSchema "gtk-theme"
      = Option.map (fun _ => v1) (gsGet st interfaceSchema "gtk-theme") ∧
    gsGet (importRun st d).1 interfaceSchema "icon-theme"
      = Option.map (fun _ => v2) (gsGet st interfaceSchema "icon-theme") ∧
    gsGet (importRun st d).1 interfaceSchema "cursor-theme"
      = Option.map (fun _ => v3) (gsGet st interfaceSchema "cursor-theme") ∧
    gsGet (importRun st d).1 backgroundSchema "picture-uri"
      = Option.map (fun _ => v4) (gsGet st backgroundSchema "picture-uri") ∧
    gsGet (importRun st d).1 terminalSchema "foreground-color"
      = Option.map (fun _ => v5) (gsGet st terminalSchema "foreground-color") := by
  rw [importRun_eq st d v1 v2 v3 v4 v5 h1 h2 h3 h4 h5]
  have ne_icon_gtk : ("gtk-theme" : String) ≠ "icon-theme" := by decide
  have ne_cur_gtk : ("gtk-theme" : String) ≠ "cursor-theme" := by decide
  have ne_pic_gtk : ("gtk-theme" : String) ≠ "picture-uri" := by decide
  have ne_fg_gtk : ("gtk-theme" : String) ≠ "foreground-color" := by decide
  have ne_gtk_icon : ("icon-theme" : String) ≠ "gtk-theme" := by decide
  have ne_cur_icon : ("icon-theme" : String) ≠ "cursor-theme" := by decide
  have ne_pic_icon : ("icon-theme" : String) ≠ "picture-uri" := by decide
  have ne_fg_icon : ("icon-theme" : String) ≠ "foreground-color" := by decide
  have ne_gtk_cur : ("cursor-theme" : String) ≠ "gtk-theme" := by decide
  have ne_icon_cur : ("cursor-theme" : String) ≠ "icon-theme" := by decide
  have ne_pic_cur : ("cursor-theme" : String) ≠ "picture-uri" := by decide
  have ne_fg_cur : ("cursor-theme" : String) ≠ "foreground-color" := by decide
  have ne_gtk_pic : ("picture-uri" : String) ≠ "gtk-theme" := by decide
  have ne_icon_pic : ("picture-uri" : String) ≠ "icon-theme" := by decide
  have ne_cur_pic : ("picture-uri" : String) ≠ "cursor-theme" := by decide
  have ne_fg_pic : ("picture-uri" : String) ≠ "foreground-color" := by decide
  have ne_gtk_fg : ("foreground-color" : String) ≠ "gtk-theme" := by decide
  have ne_icon_fg : ("foreground-color" : String) ≠ "icon-theme" := by decide
  have ne_cur_fg : ("foreground-color" : String) ≠ "cursor-theme" := by decide
  have ne_pic_fg : ("foreground-color" : String) ≠ "picture-uri" := by decide
  refine ⟨rfl, rfl, ?_, ?_, ?_, ?_, ?_⟩
  · rw [gsGet_gsSet_ne _ _ _ _ _ _ (Or.inr ne_fg_gtk),
      gsGet_gsSet_ne _ _ _ _ _ _ (Or.inr ne_pic_gtk),
      gsGet_gsSet_ne _ _ _ _ _ _ (Or.inr ne_cur_gtk),
      gsGet_gsSet_ne _ _ _ _ _ _ (Or.inr ne_icon_gtk),
      gsGet_gsSet_same]
  · rw [gsGet_gsSet_ne _ _ _ _ _ _ (Or.inr ne_fg_icon),
      gsGet_gsSet_ne _ _ _ _ _ _ (Or.inr ne_pic_icon),
      gsGet_gsSet_ne _ _ _ _ _ _ (Or.inr ne_cur_icon),
      gsGet_gsSet_same,
      gsGet_gsSet_ne _ _ _ _ _ _ (Or.inr ne_gtk_icon)]
  · rw [gsGet_gsSet_ne _ _ _ _ _ _ (Or.inr ne_fg_cur),
      gsGet_gsSet_ne _ _ _ _ _ _ (Or.inr ne_pic_cur),
      gsGet_gsSet_same,
      gsGet_gsSet_ne _ _ _ _ _ _ (Or.inr ne_icon_cur),
      gsGet_gsSet_ne _ _ _ _ _ _ (Or.inr ne_gtk_cur)]
  · rw [gsGet_gsSet_ne _ _ _ _ _ _ (Or.inr ne_fg_pic),
      gsGet_gsSet_same,
      gsGet_gsSet_ne _ _ _ _ _ _ (Or.inr ne_cur_pic),
      gsGet_gsSet_ne _ _ _ _ _ _ (Or.inr ne_icon_pic),
      gsGet_gsSet_ne _ _ _ _ _ _ (Or.inr ne_gtk_pic)]
  · rw [gsGet_gsSet_same,
      gsGet_gsSet_ne _ _ _ _ _ _ (Or.inr ne_pic_fg),
      gsGet_gsSet_ne _ _ _ _ _ _ (Or.inr ne_cur_fg),
      gsGet_gsSet_ne _ _ _ _ _ _ (Or.inr ne_icon_fg),
      gsGet_gsSet_ne _ _ _ _ _ _ (Or.inr ne_gtk_fg)]

theorem exportRecord_keys (env : Env) (r : Doc) (h : exportRecord env = some r) :
    List.map (fun e => e.1) r = fiveKeyNames := by
  obtain ⟨o1, c1, o2, c2, o3, c3, o4, c4, o5, c5, e1, e2, e3, e4, e5, hr⟩ :=
    exportRecord_split env r h
  subst hr
  rfl

theorem exportRecord_lookup (env : Env) (r : Doc) (h : exportRecord env = some r) :
    ∀ name argv, (name, argv) ∈ exportQueries →
      ∃ out code, env argv = RunOutcome.ran out code ∧
        dictLookup r name = some (pyStrip out) := by
  obtain ⟨o1, c1, o2, c2, o3, c3, o4, c4, o5, c5, e1, e2, e3, e4, e5, hr⟩ :=
    exportRecord_split env r h
  subst hr
  intro name argv hm
  simp only [exportQueries, List.mem_cons, List.not_mem_nil, or_false,
    Prod.mk.injEq] at hm
  rcases hm with ⟨rfl, rfl⟩ | ⟨rfl, rfl⟩ | ⟨rfl, rfl⟩ | ⟨rfl, rfl⟩ | ⟨rfl, rfl⟩
  · exact ⟨o1, c1, e1, rfl⟩
  · exact ⟨o2, c2, e2, rfl⟩
  · exact ⟨o3, c3, e3, rfl⟩
  · exact ⟨o4, c4, e4, rfl⟩
  · exact ⟨o5, c5, e5, rfl⟩

/-- Claim C2: whenever an export run persists a record, the record is placed at
the fixed location `settings.json` regardless of the file system's previous
content there, and it maps each of the five keys to exactly the stripped
standard output of that key's read query. -/
theorem export_persists_stripped_outputs (env : Env) (r : Doc)
    (h : exportRecord env = some r) :
    (∀ fs : FS, exportFS env fs settingsPath = some r) ∧
    (∀ name argv, (name, argv) ∈ exportQueries →
      ∃ out code, env argv = RunOutcome.ran out code ∧
        dictLookup r name = some (pyStrip out)) := by
  refine ⟨?_, exportRecord_lookup env r h⟩
  intro fs
  simp [exportFS, h]

theorem export_persists_stripped_outputs_witness :
    exportRecord envAllOk = some rAllOk ∧
    exportFS envAllOk fsEmpty settingsPath = some rAllOk :=
  ⟨rfl, (export_persists_stripped_outputs envAllOk rAllOk rfl).1 fsEmpty⟩

/-- Claim C8: whenever the exporter persists a record, the record holds exactly
the five keys gtk_theme, icon_theme, cursor_theme, wallpaper, color_scheme, in
that order; no partial record is ever written. -/
theorem export_record_complete (env : Env) (r : Doc)
    (h : exportRecord env = some r) :
    List.map (fun e => e.1) r = fiveKeyNames :=
  exportRecord_keys env r h

theorem export_record_complete_witness :
    exportRecord envAllOk = some rAllOk ∧
    List.map (fun e => e.1) rAllOk = fiveKeyNames :=
  ⟨rfl, export_record_complete envAllOk rAllOk rfl⟩

/-- Claim C5 counterexample: when the external tool is missing for the first
query, the exporter does not absorb the failure: the run aborts (uncaught
`FileNotFoundError`) and no document is written at all, contradicting the
claim that a complete five-key document is still written. -/
theorem export_missing_tool_cex :
    isMissing (envMissingTool gtkQuery) = true ∧
    exportRecord envMissingTool = none ∧
    exportFS envMissingTool fsEmpty settingsPath = none :=
  ⟨rfl, rfl, rfl⟩

/-- Claim C5 as amended: when every read query actually runs (the tool is
found), the exporter raises no error whatever the exit codes: it persists a
complete five-key document in which each key carries the stripped captured
output, degraded (empty or partial) outputs of failed queries included.  When
the tool is missing the run aborts instead and writes nothing. -/
theorem export_tool_present_writes_degraded (env : Env)
    (h : List.all exportQueries (fun nq => ! isMissing (env nq.2)) = true) :
    ∃ r : Doc, exportRecord env = some r ∧
      List.map (fun e => e.1) r = fiveKeyNames ∧
      ∀ name argv, (name, argv) ∈ exportQueries →
        ∃ out code, env argv = RunOutcome.ran out code ∧
          dictLookup r name = some (pyStrip out) := by
  have hm : isMissing (env gtkQuery) = false ∧ isMissing (env iconQuery) = false ∧
      isMissing (env cursorQuery) = false ∧ isMissing (env wallQuery) = false ∧
      isMissing (env colorQuery) = false := by
    simpa [exportQueries, Bool.not_eq_true'] using h
  obtain ⟨m1, m2, m3, m4, m5⟩ := hm
  cases e1 : env gtkQuery with
  | missing => rw [e1] at m1; exact absurd m1 (by simp [isMissing])
  | ran o1 c1 =>
  cases e2 : env iconQuery with
  | missing => rw [e2] at m2; exact absurd m2 (by simp [isMissing])
  | ran o2 c2 =>
  cases e3 : env cursorQuery with
  | missing => rw [e3] at m3; exact absurd m3 (by simp [isMissing])
  | ran o3 c3 =>
  cases e4 : env wallQuery with
  | missing => rw [e4] at m4; exact absurd m4 (by simp [isMissing])
  | ran o4 c4 =>
  cases e5 : env colorQuery with
  | missing => rw [e5] at m5; exact absurd m5 (by simp [isMissing])
  | ran o5 c5 =>
  have hrec : exportRecord env =
      some [("gtk_theme", pyStrip o1), ("icon_theme", pyStrip o2),
        ("cursor_theme", pyStrip o3), ("wallpaper", pyStrip o4),
        ("color_scheme", pyStrip o5)] := by
    simp [exportRecord, exportQueries, exportGo, capture, e1, e2, e3, e4, e5]
  exact ⟨_, hrec, exportRecord_keys env _ hrec, exportRecord_lookup env _ hrec⟩

theorem export_tool_present_writes_degraded_witness :
    List.all exportQueries (fun nq => ! isMissing (envDegraded nq.2)) = true ∧
    exportRecord envDegraded = some rDeg ∧
    List.map (fun e => e.1) rDeg = fiveKeyNames := by
  obtain ⟨r, hr, hk, hlk⟩ := export_tool_present_writes_degraded envDegraded (by decide)
  have h2 : exportRecord envDegraded = some rDeg := rfl
  rw [h2] at hr
  have : rDeg = r := Option.some.inj hr
  exact ⟨by decide, h2, this ▸ hk⟩

/-- Claim C10: every invocation the exporter issues against the external
configuration utility is a `gsettings get`; no issued argument vector is or
contains a `set`, so export never writes to the configuration store. -/
theorem export_issues_only_reads (env : Env) (q : List String)
    (h : q ∈ exportTrace env) :
    List.getD q 0 "" = "gsettings" ∧ List.getD q 1 "" = "get" ∧
      List.contains q "set" = false := by
  rcases exportTrace_mem env q h with rfl | rfl | rfl | rfl | rfl <;> decide

theorem export_issues_only_reads_witness :
    gtkQuery ∈ exportTrace envAllOk ∧
    (List.getD gtkQuery 0 "" = "gsettings" ∧ List.getD gtkQuery 1 "" = "get" ∧
      List.contains gtkQuery "set" = false) :=
  ⟨by decide, export_issues_only_reads envAllOk gtkQuery (by decide)⟩

theorem import_write_failure_continues_witness :
    dictLookup d0 "gtk_theme" = some "Adwaita" ∧
    dictLookup d0 "icon_theme" = some "Papirus" ∧
    dictLookup d0 "cursor_theme" = some "Adwaita" ∧
    dictLookup d0 "wallpaper" = some "file:///wall.png" ∧
    dictLookup d0 "color_scheme" = some "#FFFFFF" ∧
    ((importRun stReal d0).2.2 = true ∧
     List.length (importRun stReal d0).2.1 = 5 ∧
     gsGet (importRun stReal d0).1 interfaceSchema "gtk-theme"
       = Option.map (fun _ => "Adwaita") (gsGet stReal interfaceSchema "gtk-theme") ∧
     gsGet (importRun stReal d0).1 interfaceSchema "icon-theme"
       = Option.map (fun _ => "Papirus") (gsGet stReal interfaceSchema "icon-theme") ∧
     gsGet (importRun stReal d0).1 interfaceSchema "cursor-theme"
       = Option.map (fun _ => "Adwaita") (gsGet stReal interfaceSchema "cursor-theme") ∧
     gsGet (importRun stReal d0).1 backgroundSchema "picture-uri"
       = Option.map (fun _ => "file:///wall.png") (gsGet stReal backgroundSchema "picture-uri") ∧
     gsGet (importRun stReal d0).1 terminalSchema "foreground-color"
       = Option.map (fun _ => "#FFFFFF") (gsGet stReal terminalSchema "foreground-color")) :=
  ⟨rfl, rfl, rfl, rfl, rfl,
    import_write_failure_continues stReal d0 "Adwaita" "Papirus" "Adwaita"
      "file:///wall.png" "#FFFFFF" rfl rfl rfl rfl rfl⟩

/-- A valid document holding four of the five keys, lacking `cursor_theme`. -/
def docMissingCursor : Doc :=
  [ ("gtk_theme", "Adwaita"),
    ("icon_theme", "Papirus"),
    ("wallpaper", "file:///wall.png"),
    ("color_scheme", "#FFFFFF") ]

/-- Claim C4 counterexample: on a valid document that is missing only
`color_scheme`, the importer does not fail before issuing any write: the four
writes for the keys that precede the missing one in program order are issued
against the configuration store before the `KeyError` aborts the run. -/
theorem import_missing_key_cex :
    dictLookup docMissingColor "color_scheme" = none ∧
    List.length (importRun st0 docMissingColor).2.1 = 4 :=
  ⟨rfl, rfl⟩

/-- Claim C4 as amended: on a valid document missing one of the five keys, the
importer aborts at the first missing key in the fixed order: the writes for the
keys strictly before it are issued, each with its stored value, and no write
for the missing key or any later key is issued. -/
theorem import_missing_key_stops_at_first (st : GStore) (d : Doc) (i : Nat)
    (hi : i < 5)
    (hpre : List.all (importKeyNames.take i) (fun n => (dictLookup d n).isSome) = true)
    (hmiss : dictLookup d (importKeyNames.getD i "") = none) :
    (importRun st d).2.1 = importWriteList d i ∧ (importRun st d).2.2 = false := by
  interval_cases i
  · have hm0 : dictLookup d "gtk_theme" = none := hmiss
    simp [importRun, importEntries, importGo, hm0, importWriteList]
  · have hm1 : dictLookup d "icon_theme" = none := hmiss
    have hp : ((dictLookup d "gtk_theme").isSome && true) = true := hpre
    rw [Bool.and_true] at hp
    obtain ⟨v1, hv1⟩ := Option.isSome_iff_exists.mp hp
    simp [importRun, importEntries, importGo, hv1, hm1, importWriteList]
  · have hm2 : dictLookup d "cursor_theme" = none := hmiss
    have hp : ((dictLookup d "gtk_theme").isSome &&
        ((dictLookup d "icon_theme").isSome && true)) = true := hpre
    simp only [Bool.and_true, Bool.and_eq_true] at hp
    obtain ⟨hp1, hp2⟩ := hp
    obtain ⟨v1, hv1⟩ := Option.isSome_iff_exists.mp hp1
    obtain ⟨v2, hv2⟩ := Option.isSome_iff_exists.mp hp2
    simp [importRun, importEntries, importGo, hv1, hv2, hm2, importWriteList]
  · have hm3 : dictLookup d "wallpaper" = none := hmiss
    have hp : ((dictLookup d "gtk_theme").isSome &&
        ((dictLookup d "icon_theme").isSome &&
          ((dictLookup d "cursor_theme").isSome && true))) = true := hpre
    simp only [Bool.and_true, Bool.and_eq_true] at hp
    obtain ⟨hp1, hp2, hp3⟩ := hp
    obtain ⟨v1, hv1⟩ := Option.isSome_iff_exists.mp hp1
    obtain ⟨v2, hv2⟩ := Option.isSome_iff_exists.mp hp2
    obtain ⟨v3, hv3⟩ := Option.isSome_iff_exists.mp hp3
    simp [importRun, importEntries, importGo, hv1, hv2, hv3, hm3, importWriteList]
  · have hm4 : dictLookup d "color_scheme" = none := hmiss
    have hp : ((dictLookup d "gtk_theme").isSome &&
        ((dictLookup d "icon_theme").isSome &&
          ((dictLookup d "cursor_theme").isSome &&
            ((dictLookup d "wallpaper").isSome && true)))) = true := hpre
    simp only [Bool.and_true, Bool.and_eq_true] at hp
    obtain ⟨hp1, hp2, hp3, hp4⟩ := hp
    obtain ⟨v1, hv1⟩ := Option.isSome_iff_exists.mp hp1
    obtain ⟨v2, hv2⟩ := Option.isSome_iff_exists.mp hp2
    obtain ⟨v3, hv3⟩ := Option.isSome_iff_exists.mp hp3
    obtain ⟨v4, hv4⟩ := Option.isSome_iff_exists.mp hp4
    simp [importRun, importEntries, importGo, hv1, hv2, hv3, hv4, hm4, importWriteList]

theorem import_missing_key_stops_at_first_witness :
    2 < 5 ∧
    List.all (importKeyNames.take 2) (fun n => (dictLookup docMissingCursor n).isSome) = true ∧
    dictLookup docMissingCursor (importKeyNames.getD 2 "") = none ∧
    ((importRun st0 docMissingCursor).2.1 = importWriteList docMissingCursor 2 ∧
     (importRun st0 docMissingCursor).2.2 = false) :=
  ⟨by decide, by decide, by decide,
    import_missing_key_stops_at_first st0 docMissingCursor 2 (by decide)
      (by decide) (by decide)⟩

/-- Claim C7 evidence: the color-scheme schema argument is one fixed string
literal that merely contains the text of a command substitution.  Both scripts
hand it to `subprocess.run` as an element of an argument vector, with no shell
involved, so the `$(`...`)` profile sub-lookup is never evaluated: the read and
the write address the literal schema name, which no live store holds, and on a
realistic store the exporter captures the empty string for `color_scheme`
while the importer's write is a failing no-op. -/
theorem color_scheme_schema_is_literal :
    terminalSchema = terminalSchemaHead ++ "$(" ++ terminalSchemaCmd ++ ")/" ∧
    ("color_scheme", ["gsettings", "get", terminalSchema, "foreground-color"]) ∈ exportQueries ∧
    ("color_scheme", terminalSchema, "foreground-color") ∈ importEntries ∧
    gsGet stReal terminalSchema "foreground-color" = none ∧
    exportRecord (storeEnv stReal) = some (roundDoc stReal) ∧
    dictLookup (roundDoc stReal) "color_scheme" = some "" ∧
    gsSet stReal terminalSchema "foreground-color" "#FFFFFF" = stReal :=
  ⟨by decide, by decide, by decide, by decide, exportRecord_storeEnv stReal,
    by decide, by decide⟩
